import Mathlib

/-!
Shallow embedding of the hotel booking manager in `src/app.py`
(the `Hotel` class: `check_in`, `check_out`, `get_available_by_type`,
`get_history`, together with the `ROOM_TYPES` catalog).

Python dictionaries are modelled as insertion-ordered association lists
with the exact semantics of `d[k] = v` (update in place or append),
`d.pop(k)`, `k in d`, `d[k]` (raising `KeyError` when absent, modelled as
`Option`/`Except`) and `d[k] += v`.  `datetime.now()` is modelled by
threading the formatted timestamp as an explicit argument.  Python `int`
is modelled as `Int`.
-/

set_option autoImplicit false

universe u v

variable {α : Type u} {β : Type v}

/-- `d[k]` as a total lookup: first entry with key `k`, if any. -/
def dictGet [DecidableEq α] : List (α × β) → α → Option β
  | [], _ => none
  | p :: rest, k => if p.1 = k then some p.2 else dictGet rest k

/-- `k in d`. -/
def dictMem [DecidableEq α] : List (α × β) → α → Bool
  | [], _ => false
  | p :: rest, k => decide (p.1 = k) || dictMem rest k

/-- `d[k] = v`: update the existing entry in place, else append at the end
(CPython insertion-order semantics). -/
def dictSet [DecidableEq α] : List (α × β) → α → β → List (α × β)
  | [], k, v => [(k, v)]
  | p :: rest, k, v => if p.1 = k then (k, v) :: rest else p :: dictSet rest k v

/-- `d.pop(k)`: remove the entry with key `k` (keys are unique in all the
dictionaries the program builds). -/
def dictRemove [DecidableEq α] : List (α × β) → α → List (α × β)
  | [], _ => []
  | p :: rest, k => if p.1 = k then rest else p :: dictRemove rest k

/-- `d[k] += v`: `KeyError` (= `none`) when `k` is not a key of `d`. -/
def dictIncr [DecidableEq α] (l : List (α × Int)) (k : α) (v : Int) :
    Option (List (α × Int)) :=
  match dictGet l k with
  | none => none
  | some c => some (dictSet l k (c + v))

/-- `ROOM_TYPES` from `src/app.py`: room type name to price per night. -/
def ROOM_TYPES : List (String × Int) := [("Single", 50), ("Double", 80), ("Suite", 120)]

/-- One guest record, as built by `Hotel.check_in` (the dict stored in
`self.guests`); `room_number` and `check_out_date` are the keys that
`Hotel.check_out` adds before archiving. -/
structure GuestStay where
  name : String
  email : String
  phone : String
  room_type : String
  nights : Int
  total_cost : Int
  check_in_date : String
  special_requests : String
  room_number : Option Int := none
  check_out_date : Option String := none
deriving Repr, DecidableEq

/-- The mutable state of the `Hotel` class. -/
structure Hotel where
  total_rooms : Int
  available_rooms : Int
  guests : List (Int × GuestStay)
  history : List GuestStay
  room_type_count : List (String × Int)
deriving Repr, DecidableEq

/-- `Hotel.__init__(total_rooms)`. -/
def Hotel.init (total_rooms : Int) : Hotel :=
  { total_rooms := total_rooms
    available_rooms := total_rooms
    guests := []
    history := []
    room_type_count := ROOM_TYPES.map (fun p => (p.1, 0)) }

/-- `Hotel.check_in`.  Returns the Python result (`None` = `Except.ok none`,
a returned room number = `Except.ok (some r)`, a raised `KeyError` =
`Except.error`) together with the state the object is left in.  When
`room_type` is not a key of `room_type_count`, line 53 of `src/app.py`
raises `KeyError` after the guest has been inserted (line 42) and
`available_rooms` decremented (line 52). -/
def Hotel.check_in (h : Hotel) (name email phone room_type : String)
    (nights : Int) (special_requests : String) (now : String) :
    Except String (Option Int) × Hotel :=
  if h.available_rooms = 0 then
    (Except.ok none, h)
  else
    let room_number := h.total_rooms - h.available_rooms + 1
    let price_per_night := (dictGet ROOM_TYPES room_type).getD 50
    let total_cost := price_per_night * nights
    let stay : GuestStay :=
      { name := name, email := email, phone := phone, room_type := room_type
        nights := nights, total_cost := total_cost, check_in_date := now
        special_requests := special_requests }
    let guests1 := dictSet h.guests room_number stay
    let avail1 := h.available_rooms - 1
    match dictIncr h.room_type_count room_type 1 with
    | some rtc =>
        (Except.ok (some room_number),
         { h with guests := guests1, available_rooms := avail1, room_type_count := rtc })
    | none =>
        (Except.error "KeyError",
         { h with guests := guests1, available_rooms := avail1 })

/-- `Hotel.check_out`.  When `room_number` is active, the guest dict is
popped, stamped with `room_number` and `check_out_date`, appended to
`history` and `available_rooms` incremented; line 67 of `src/app.py`
then raises `KeyError` if the guest's `room_type` is not a key of
`room_type_count`. -/
def Hotel.check_out (h : Hotel) (room_number : Int) (now : String) :
    Except String (Option GuestStay) × Hotel :=
  match dictGet h.guests room_number with
  | none => (Except.ok none, h)
  | some guest =>
      let archived := { guest with room_number := some room_number, check_out_date := some now }
      let guests1 := dictRemove h.guests room_number
      let history1 := h.history ++ [archived]
      let avail1 := h.available_rooms + 1
      match dictIncr h.room_type_count guest.room_type (-1) with
      | some rtc =>
          (Except.ok (some archived),
           { h with guests := guests1, history := history1
                    available_rooms := avail1, room_type_count := rtc })
      | none =>
          (Except.error "KeyError",
           { h with guests := guests1, history := history1, available_rooms := avail1 })

/-- `Hotel.get_available_by_type`, built entry by entry like the Python
loop; `none` models the `KeyError` raised by `self.room_type_count[rtype]`
when `rtype` is not a key. -/
def availByTypeEntries (counts : List (String × Int)) (allKeys : List String) :
    List String → Option (List (String × Int))
  | [] => some []
  | rtype :: rest =>
      match dictGet counts rtype with
      | none => none
      | some c =>
          let total : Int := (allKeys.indexOf rtype : Nat) + 1
          match availByTypeEntries counts allKeys rest with
          | none => none
          | some result => some ((rtype, total - c) :: result)

/-- `Hotel.get_available_by_type` from `src/app.py` lines 77-82. -/
def Hotel.get_available_by_type (h : Hotel) : Option (List (String × Int)) :=
  availByTypeEntries h.room_type_count (ROOM_TYPES.map Prod.fst) (ROOM_TYPES.map Prod.fst)

/-- `Hotel.get_history`. -/
def Hotel.get_history (h : Hotel) : List GuestStay := h.history

/-- `Hotel.get_available_rooms`. -/
def Hotel.get_available_rooms (h : Hotel) : Int := h.available_rooms

/-- One call into the registry (the timestamp the clock would produce is
carried in the operation). -/
inductive Op where
  | checkin (name email phone room_type : String) (nights : Int)
      (special_requests : String) (now : String)
  | checkout (room_number : Int) (now : String)

/-- Execute one operation, keeping the state the object is left in (also
when the call raised: the singleton's state persists across requests). -/
def Hotel.step (h : Hotel) : Op → Hotel
  | Op.checkin n e p rt ni sr now => (h.check_in n e p rt ni sr now).2
  | Op.checkout r now => (h.check_out r now).2

/-- Execute a sequence of operations. -/
def Hotel.run (h : Hotel) (ops : List Op) : Hotel :=
  ops.foldl Hotel.step h

/-! ### Dictionary lemmas -/

theorem dictGet_dictSet_self [DecidableEq α] (l : List (α × β)) (k : α) (v : β) :
    dictGet (dictSet l k v) k = some v := by
  induction l with
  | nil => simp [dictGet, dictSet]
  | cons p rest ih =>
      by_cases hpk : p.1 = k
      · simp [dictSet, hpk, dictGet]
      · simp [dictSet, hpk, dictGet, ih]

theorem dictMem_dictSet_self [DecidableEq α] (l : List (α × β)) (k : α) (v : β) :
    dictMem (dictSet l k v) k = true := by
  induction l with
  | nil => simp [dictMem, dictSet]
  | cons p rest ih =>
      by_cases hpk : p.1 = k
      · simp [dictSet, hpk, dictMem]
      · simp [dictSet, hpk, dictMem, ih]

theorem dictGet_eq_none_of_mem_false [DecidableEq α] (l : List (α × β)) (k : α)
    (hm : dictMem l k = false) : dictGet l k = none := by
  induction l with
  | nil => simp [dictGet]
  | cons p rest ih =>
      simp [dictMem] at hm
      simp [dictGet, hm.1, ih hm.2]

/-! ### Claim theorems -/

/-- Claim C5: with `available_rooms == 0`, `check_in` returns the failure
signal `None` and leaves the whole registry state unchanged, for every
argument tuple (the guard at line 34 of `src/app.py` fires before any
mutation). -/
theorem checkin_full_noop (h : Hotel) (n e p rt : String) (ni : Int) (sr now : String)
    (h0 : h.available_rooms = 0) :
    h.check_in n e p rt ni sr now = (Except.ok none, h) := by
  simp [Hotel.check_in, h0]

/-- Witness for `checkin_full_noop` at a concrete zero-capacity hotel. -/
theorem checkin_full_noop_witness :
    (Hotel.init 0).available_rooms = 0 ∧
    (Hotel.init 0).check_in "Alice" "a" "1" "Suite" 3 "" "t1" = (Except.ok none, Hotel.init 0) :=
  ⟨rfl, checkin_full_noop (Hotel.init 0) "Alice" "a" "1" "Suite" 3 "" "t1" rfl⟩

/-- Claim C6: `check_out` on a room number that is not a key of the active
mapping returns the failure signal `None` and leaves the whole registry
state (available_rooms, guests, history, counters) unchanged. -/
theorem checkout_unknown_noop (h : Hotel) (r : Int) (now : String)
    (hr : dictMem h.guests r = false) :
    h.check_out r now = (Except.ok none, h) := by
  simp [Hotel.check_out, dictGet_eq_none_of_mem_false h.guests r hr]

/-- Witness for `checkout_unknown_noop`: room 3 of a fresh 5-room hotel. -/
theorem checkout_unknown_noop_witness :
    dictMem (Hotel.init 5).guests 3 = false ∧
    (Hotel.init 5).check_out 3 "t1" = (Except.ok none, Hotel.init 5) :=
  ⟨rfl, checkout_unknown_noop (Hotel.init 5) 3 "t1" rfl⟩

/-! ### Concrete scenarios -/

/-- The four-request sequence check-in Alice, check-in Bob, check-out room 1,
check-in Carol, on a fresh 5-room hotel. -/
def c1ops : List Op :=
  [Op.checkin "Alice" "a" "1" "Single" 2 "" "t1",
   Op.checkin "Bob" "b" "2" "Single" 3 "" "t2",
   Op.checkout 1 "t3",
   Op.checkin "Carol" "c" "3" "Single" 1 "" "t4"]

/-- The state reached by `c1ops`. -/
def c1state : Hotel := (Hotel.init 5).run c1ops

/-- Claim C1 (code bug): the documented invariant
`available_rooms + count(active guests) == total_rooms` fails in a reachable
state.  After check-in Alice, check-in Bob, check-out room 1, check-in Carol
on a 5-room hotel, the fourth check-in recomputes room number 2, silently
overwrites Bob's active record, and the sum is 4 while total_rooms is 5. -/
theorem checkin_overwrite_breaks_invariant :
    c1state.available_rooms + (c1state.guests.length : Int) = 4 ∧
    c1state.total_rooms = 5 := by
  constructor <;> rfl

/-- The call `check_in("Eve", ..., room_type="Penthouse", nights=2)` on a
fresh 5-room hotel: "Penthouse" is not a key of `ROOM_TYPES`. -/
def c2call : Except String (Option Int) × Hotel :=
  (Hotel.init 5).check_in "Eve" "e" "5" "Penthouse" 2 "" "t1"

/-- Claim C2 (code bug): check-in with an unknown room type does NOT complete
normally.  The price lookup does fall back to the default rate 50 (the stored
stay has total_cost 50 * 2 = 100), but line 53 of `src/app.py`
(`self.room_type_count[room_type] += 1`) raises `KeyError` — after the guest
was inserted under room 1 and `available_rooms` was decremented to 4. -/
theorem checkin_unknown_type_raises :
    c2call.1 = Except.error "KeyError" ∧
    c2call.2.available_rooms = 4 ∧
    dictGet c2call.2.guests 1 =
      some { name := "Eve", email := "e", phone := "5", room_type := "Penthouse",
             nights := 2, total_cost := 100, check_in_date := "t1",
             special_requests := "" } :=
  ⟨rfl, rfl, rfl⟩

/-- Bob's check-in, after Alice checked in on a fresh 5-room hotel. -/
def twoIn : Except String (Option Int) × Hotel :=
  (((Hotel.init 5).check_in "Alice" "a" "1" "Single" 2 "" "t1").2.check_in
    "Bob" "b" "2" "Single" 3 "" "t2")

/-- State after Alice checked out of room 1 again. -/
def afterFirstOut : Hotel := (twoIn.2.check_out 1 "t3").2

/-- Carol's check-in from `afterFirstOut`. -/
def carolCall : Except String (Option Int) × Hotel :=
  afterFirstOut.check_in "Carol" "c" "3" "Single" 1 "" "t4"

/-- Claim C3: room-number reuse displaces an active guest.  Bob was assigned
room 2; after check-out of room 1 the formula
`total_rooms - available_rooms + 1` again yields 2 although room 2 still keys
Bob's active record; Carol's check-in returns 2 and overwrites that entry, and
Bob's record is afterwards neither in the active mapping nor in history. -/
theorem room_number_reuse_displaces_guest :
    twoIn.1 = Except.ok (some 2) ∧
    afterFirstOut.total_rooms - afterFirstOut.available_rooms + 1 = 2 ∧
    dictMem afterFirstOut.guests 2 = true ∧
    carolCall.1 = Except.ok (some 2) ∧
    carolCall.2.guests.map (fun q => q.2.name) = ["Carol"] ∧
    carolCall.2.history.map GuestStay.name = ["Alice"] :=
  ⟨rfl, rfl, rfl, rfl, rfl, rfl⟩

/-- Reachable state holding an active guest whose room_type "Penthouse" is
not a key of the per-type counters (left behind by a crashed check-in). -/
def c7state : Hotel := ((Hotel.init 5).check_in "Eve" "e" "5" "Penthouse" 2 "" "t1").2

/-- The check-out of that active room. -/
def c7call : Except String (Option GuestStay) × Hotel := c7state.check_out 1 "t2"

/-- Counterexample to claim C7 as stated: room 1 is present in the active
mapping of the reachable state `c7state`, yet `check_out(1)` returns no
archived record — it raises `KeyError` at line 67 of `src/app.py` — and
decrements no room-type counter, although the record was already moved to
history and `available_rooms` incremented. -/
theorem checkout_keyerror_counterexample :
    dictMem c7state.guests 1 = true ∧
    c7call.1 = Except.error "KeyError" ∧
    c7call.2.room_type_count = c7state.room_type_count ∧
    c7call.2.available_rooms = c7state.available_rooms + 1 ∧
    c7call.2.history.map GuestStay.name = ["Eve"] :=
  ⟨rfl, rfl, rfl, rfl, rfl⟩

/-- Claim C4: whenever `check_in` returns a room number (the success case),
that number is `total_rooms - available_rooms + 1` computed from the
`available_rooms` value at the moment of the call, and the new stay is
stored in the active mapping under that key. -/
theorem checkin_returns_sequential_room (h : Hotel) (n e p rt : String) (ni : Int)
    (sr now : String) (r : Int)
    (hr : (h.check_in n e p rt ni sr now).1 = Except.ok (some r)) :
    r = h.total_rooms - h.available_rooms + 1 ∧
    dictMem (h.check_in n e p rt ni sr now).2.guests r = true := by
  by_cases h0 : h.available_rooms = 0
  · simp [Hotel.check_in, h0] at hr
  · cases hI : dictIncr h.room_type_count rt 1 with
    | none => simp [Hotel.check_in, h0, hI] at hr
    | some rtc =>
        simp [Hotel.check_in, h0, hI] at hr ⊢
        subst hr
        exact ⟨rfl, dictMem_dictSet_self _ _ _⟩

/-- Witness for `checkin_returns_sequential_room`: the first check-in on a
fresh 5-room hotel returns room 1 = 5 - 5 + 1. -/
theorem checkin_returns_sequential_room_witness :
    ((Hotel.init 5).check_in "Alice" "a" "1" "Single" 2 "" "t1").1 = Except.ok (some 1) ∧
    ((1 : Int) = (Hotel.init 5).total_rooms - (Hotel.init 5).available_rooms + 1 ∧
      dictMem ((Hotel.init 5).check_in "Alice" "a" "1" "Single" 2 "" "t1").2.guests 1 = true) :=
  ⟨rfl, checkin_returns_sequential_room (Hotel.init 5) "Alice" "a" "1" "Single" 2 "" "t1" 1 rfl⟩

/-- Claim C7 amended: for a room number that keys an active guest whose
room_type is a key of the per-type counters, `check_out` returns the archived
record (the original fields unchanged, plus `room_number` and the check-out
timestamp), removes exactly that entry from the active mapping, appends the
record to history, increments `available_rooms` by 1, and decrements that
room type's counter by 1. -/
theorem checkout_active_moves_record (h : Hotel) (r : Int) (now : String)
    (g : GuestStay) (c : Int)
    (hg : dictGet h.guests r = some g)
    (hc : dictGet h.room_type_count g.room_type = some c) :
    (h.check_out r now).1 =
      Except.ok (some { g with room_number := some r, check_out_date := some now }) ∧
    (h.check_out r now).2.guests = dictRemove h.guests r ∧
    (h.check_out r now).2.history =
      h.history ++ [{ g with room_number := some r, check_out_date := some now }] ∧
    (h.check_out r now).2.available_rooms = h.available_rooms + 1 ∧
    dictGet (h.check_out r now).2.room_type_count g.room_type = some (c - 1) := by
  have hI : dictIncr h.room_type_count g.room_type (-1)
      = some (dictSet h.room_type_count g.room_type (c + (-1))) := by
    simp [dictIncr, hc]
  simp [Hotel.check_out, hg, hI, dictGet_dictSet_self]
  norm_num [Int.sub_eq_add_neg]

/-- The stay stored for Alice by the first check-in. -/
def aliceStay : GuestStay :=
  { name := "Alice", email := "a", phone := "1", room_type := "Single",
    nights := 2, total_cost := 100, check_in_date := "t1", special_requests := "" }

/-- State with Alice active in room 1 of a fresh 5-room hotel. -/
def singleIn : Hotel := ((Hotel.init 5).check_in "Alice" "a" "1" "Single" 2 "" "t1").2

/-- Witness for `checkout_active_moves_record` at Alice's stay. -/
theorem checkout_active_moves_record_witness :
    dictGet singleIn.guests 1 = some aliceStay ∧
    dictGet singleIn.room_type_count aliceStay.room_type = some 1 ∧
    (singleIn.check_out 1 "t9").2.available_rooms = singleIn.available_rooms + 1 :=
  ⟨rfl, rfl, (checkout_active_moves_record singleIn 1 "t9" aliceStay 1 rfl rfl).2.2.2.1⟩

/-- Claim C8: every stay stored by `check_in` (under the computed room number)
has `total_cost` equal to the catalog's nightly price for its room type times
`nights`; a room type that is not a catalog key uses the default price 50.
This holds whether or not the call later raises at the counter update. -/
theorem checkin_total_cost (h : Hotel) (n e p rt : String) (ni : Int) (sr now : String)
    (pr : Int) (hav : h.available_rooms ≠ 0) :
    (dictGet ROOM_TYPES rt = some pr →
      (dictGet (h.check_in n e p rt ni sr now).2.guests
          (h.total_rooms - h.available_rooms + 1)).map GuestStay.total_cost
        = some (pr * ni)) ∧
    (dictGet ROOM_TYPES rt = none →
      (dictGet (h.check_in n e p rt ni sr now).2.guests
          (h.total_rooms - h.available_rooms + 1)).map GuestStay.total_cost
        = some (50 * ni)) := by
  cases hI : dictIncr h.room_type_count rt 1 with
  | none =>
      constructor <;> intro hrt <;>
        simp [Hotel.check_in, hav, hI, hrt, dictGet_dictSet_self]
  | some rtc =>
      constructor <;> intro hrt <;>
        simp [Hotel.check_in, hav, hI, hrt, dictGet_dictSet_self]

/-- Witness for `checkin_total_cost`: a Double for 2 nights costs 80 * 2. -/
theorem checkin_total_cost_witness :
    (Hotel.init 5).available_rooms ≠ 0 ∧
    (dictGet ((Hotel.init 5).check_in "Bob" "b" "2" "Double" 2 "" "t1").2.guests
        ((Hotel.init 5).total_rooms - (Hotel.init 5).available_rooms + 1)).map
      GuestStay.total_cost = some (80 * 2) :=
  ⟨by decide,
   (checkin_total_cost (Hotel.init 5) "Bob" "b" "2" "Double" 2 "" "t1" 80 (by decide)).1 rfl⟩

/-- One operation never deletes or mutates an existing history entry: the new
history is the old one followed by the (zero or one) record archived by the
operation, also on the paths that raise. -/
theorem step_history_extends (h : Hotel) (op : Op) :
    ∃ t, (h.step op).history = h.history ++ t := by
  cases op with
  | checkin n e p rt ni sr now =>
      refine ⟨[], ?_⟩
      by_cases h0 : h.available_rooms = 0
      · simp [Hotel.step, Hotel.check_in, h0]
      · cases hI : dictIncr h.room_type_count rt 1 <;>
          simp [Hotel.step, Hotel.check_in, h0, hI]
  | checkout r now =>
      cases hg : dictGet h.guests r with
      | none => exact ⟨[], by simp [Hotel.step, Hotel.check_out, hg]⟩
      | some g =>
          refine ⟨[{ g with room_number := some r, check_out_date := some now }], ?_⟩
          cases hI : dictIncr h.room_type_count g.room_type (-1) <;>
            simp [Hotel.step, Hotel.check_out, hg, hI]

/-- Claim C9: across every sequence of operations, history is append-only and
order-preserving: the history of the resulting state is the original history
followed by the newly archived records, so no existing entry is deleted,
mutated or reordered, and archived records appear in checkout order. -/
theorem history_append_only (h : Hotel) (ops : List Op) :
    ∃ t, (h.run ops).history = h.history ++ t := by
  induction ops generalizing h with
  | nil => exact ⟨[], by simp [Hotel.run]⟩
  | cons op rest ih =>
      obtain ⟨t1, ht1⟩ := step_history_extends h op
      obtain ⟨t2, ht2⟩ := ih (h.step op)
      refine ⟨t1 ++ t2, ?_⟩
      have hrun : (h.run (op :: rest)) = (h.step op).run rest := by
        simp [Hotel.run]
      rw [hrun, ht2, ht1, List.append_assoc]

/-- Claim C10: `get_available_by_type` returns, for each room type in the
catalog's declared order, the 1-based ordinal position of that type in the
catalog minus that type's occupancy counter. -/
theorem available_by_type_formula (h : Hotel) (cS cD cSu : Int)
    (hS : dictGet h.room_type_count "Single" = some cS)
    (hD : dictGet h.room_type_count "Double" = some cD)
    (hSu : dictGet h.room_type_count "Suite" = some cSu) :
    h.get_available_by_type =
      some [("Single", 1 - cS), ("Double", 2 - cD), ("Suite", 3 - cSu)] := by
  simp [Hotel.get_available_by_type, availByTypeEntries, ROOM_TYPES, hS, hD, hSu,
        List.indexOf, List.findIdx, List.findIdx.go]

/-- Witness for `available_by_type_formula`: on a fresh hotel every counter
is 0, so the result is the 1-based catalog positions themselves. -/
theorem available_by_type_formula_witness :
    (Hotel.init 5).get_available_by_type =
      some [("Single", 1 - 0), ("Double", 2 - 0), ("Suite", 3 - 0)] :=
  available_by_type_formula (Hotel.init 5) 0 0 0 rfl rfl rfl
